import Mathlib

/-!
# `read_file` / `write_file` (torchvision/csrc/cpu/image/read_write_file_cpu.cpp)

A shallow embedding of the two functions of `read_write_file_cpu.cpp` together
with the part of the host they call into (`stat`, `torch::from_file`, `fopen`,
`fwrite`, `fclose`, `strerror`, `TORCH_CHECK`).

* A tensor is the capability set the source uses: device, dtype, sizes and the
  contiguous bytes behind `data_ptr`.
* The functions hand `filename.c_str()` to the host, so the host sees the
  name up to its first NUL character (`c_str`).
* Several names can denote one file (`./a` and `a`, links). The host maps
  every name to the canonical name of the file it denotes (`Host.canon`); the
  filesystem is keyed by canonical names.
* A canonical name resolves to a regular file (its bytes and the size `stat`
  reports, which for some files, such as those of procfs, is not the number
  of bytes), a directory, a character device that discards what is written
  to it, or fails with an error number.
* The world is the filesystem plus the list of host calls made so far, so
  that "is never reached" is a statement about that list.
* `TORCH_CHECK` failures are `Except.error` carrying the message.
* What the host decides on its own (whether an open for writing or a
  read-only mapping is granted, how many bytes a write accepts, the text of
  `strerror`) is a `Host` record.

The tensor `from_file` returns holds the bytes the mapping shows at the time
of the call. The real mapping is live: its bytes stay valid only while the
mapped file is not truncated or rewritten. A statement that uses such a
buffer after a write therefore assumes that the write went to another file.
-/

namespace Vision

/-- One `uint8_t`. -/
abbrev Byte := Fin 256

/-- Device kinds of a tensor (`torch::kCPU`, ...). -/
inductive DeviceType where
  | kCPU
  | kCUDA
  | kMPS
  | kXLA
  | kMeta
  deriving DecidableEq

/-- Element types of a tensor (`torch::kU8`, ...). -/
inductive ScalarType where
  | kU8
  | kI8
  | kI16
  | kI32
  | kI64
  | kF16
  | kF32
  | kF64
  | kBool
  deriving DecidableEq

/-- Size in bytes of one element of the given type. -/
def ScalarType.itemsize : ScalarType → Nat
  | .kU8 => 1
  | .kI8 => 1
  | .kI16 => 2
  | .kI32 => 4
  | .kI64 => 8
  | .kF16 => 2
  | .kF32 => 4
  | .kF64 => 8
  | .kBool => 1

/-- The view of `torch::Tensor` that the two functions use: `device()`,
`dtype()`, the shape (`dim()` is its length, `numel()` its product) and the
contiguous bytes that `data_ptr` points to. -/
structure Tensor where
  device : DeviceType
  dtype : ScalarType
  sizes : List Nat
  storage : List Byte
  deriving DecidableEq

/-- Rank, `data.dim()`. -/
def Tensor.dim (t : Tensor) : Nat := t.sizes.length

/-- Element count, `data.numel()`. -/
def Tensor.numel (t : Tensor) : Nat := t.sizes.prod

/-- Bytes starting at `data.data_ptr<uint8_t>()`. -/
def Tensor.data_ptr (t : Tensor) : List Byte := t.storage

/-- The storage holds exactly `numel` elements of the tensor's type. -/
def Tensor.WellFormed (t : Tensor) : Prop :=
  t.storage.length = t.numel * t.dtype.itemsize

instance (t : Tensor) : Decidable t.WellFormed := by
  unfold Tensor.WellFormed; infer_instance

/-- An OS error number as left in `errno` by a failed call; POSIX error
numbers are positive. -/
structure Errno where
  code : Int
  pos : 0 < code

/-- What a canonical name resolves to when resolution succeeds: a regular
file with its bytes and the size `stat` reports for it, a directory with the
size `stat` reports for it, or a character device such as `/dev/null`. -/
inductive Node where
  | regular (content : List Byte) (st_size : Int)
  | directory (st_size : Int)
  | device
  deriving DecidableEq

/-- Host calls, recorded in the order they are made with their arguments. -/
inductive Call where
  | stat (path : String)
  | from_file (path : String) (size : Int)
  | fopen (path : String)
  | fwrite (stream : String) (nmemb : Nat) (written : Nat)
  | fclose (stream : String)
  deriving DecidableEq

/-- The filesystem (`files`: every canonical name either resolves to a node
or fails with an error number) and the host calls made so far. -/
structure World where
  files : String → Except Errno Node
  calls : List Call

/-- Decisions of the host that the file contents do not determine: the text
`strerror` gives for an error number, the canonical name of the file a path
denotes, whether an open for writing at a path is granted (permissions,
parent directory, free inodes), whether a read-only open and mapping of a
path is granted, and how many bytes a write accepts (disk space, quota). -/
structure Host where
  strerror : Int → String
  canon : String → String
  may_open : String → Bool
  may_map : String → Bool
  wr_limit : Nat

/-- Outcome of `stat(path, &stat_buf)`: the return code, `stat_buf.st_size`
and the value of `errno` after the call. -/
structure StatResult where
  rc : Int
  st_size : Int
  errno : Int
  deriving DecidableEq

/-- The C string `s.c_str()` as the host reads it: the characters before the
first NUL. -/
def c_str (s : String) : String :=
  ⟨s.data.takeWhile (fun ch => decide (ch ≠ Char.ofNat 0))⟩

/-- Record a host call. -/
def World.log (w : World) (c : Call) : World :=
  { w with calls := w.calls ++ [c] }

/-- The call `stat(2)` on a C path: return code 0 and the reported size when
the path resolves (0 for a character device), return code -1 and the error
number otherwise. The filesystem is not changed. -/
def stat (h : Host) (w : World) (path : String) : StatResult × World :=
  match w.files (h.canon path) with
  | .ok (.regular _ sz) => (⟨0, sz, 0⟩, w.log (.stat path))
  | .ok (.directory sz) => (⟨0, sz, 0⟩, w.log (.stat path))
  | .ok .device => (⟨0, 0, 0⟩, w.log (.stat path))
  | .error e => (⟨-1, 0, e.code⟩, w.log (.stat path))

/-- The call `torch::from_file(filename, /*shared=*/false, size, torch::kU8)`:
the library opens `filename.c_str()` read-only and maps the first `size`
bytes privately as a one-dimensional uint8 CPU tensor. It fails when the
host does not grant the open or the mapping, when the path is not a regular
file, or when the file holds fewer than `size` bytes (the texts of these
errors stand in for those of the library). The filesystem is not changed.
The tensor returned holds the bytes of the mapping at the time of the call. -/
def from_file (h : Host) (w : World) (filename : String) (size : Int) :
    Except String Tensor × World :=
  let w1 := w.log (.from_file filename size)
  if h.may_map (c_str filename) then
    match w.files (h.canon (c_str filename)) with
    | .ok (.regular c _) =>
      if 0 ≤ size ∧ size.toNat ≤ c.length then
        (.ok ⟨.kCPU, .kU8, [size.toNat], c.take size.toNat⟩, w1)
      else
        (.error "from_file: file is smaller than the requested size", w1)
    | .ok (.directory _) => (.error "from_file: unable to map file", w1)
    | .ok .device => (.error "from_file: unable to map file", w1)
    | .error _ => (.error "from_file: unable to open file", w1)
  else
    (.error "from_file: unable to open file", w1)

/-- The call `fopen(path, "wb")` on a C path: when the host grants the open
and the path is not a directory, a stream on the file the path denotes is
returned (a stream is identified by the canonical name of its file); a
character device is left as it is, any other file is created or truncated
to length zero. Otherwise the result is `NULL` (`none`) and the filesystem
is not changed. -/
def fopen (h : Host) (w : World) (path : String) : Option String × World :=
  let w1 := w.log (.fopen path)
  if h.may_open path then
    match w.files (h.canon path) with
    | .ok (.directory _) => (none, w1)
    | .ok .device => (some (h.canon path), w1)
    | _ =>
      (some (h.canon path),
        { w1 with
          files := fun k => if k = h.canon path then .ok (.regular [] 0) else w.files k })
  else
    (none, w1)

/-- The call `fwrite(ptr, size, nmemb, stream)`: of the `size * nmemb` bytes
at `ptr` the host accepts at most `wr_limit`; on a regular file the accepted
bytes are appended and the reported size grows by their number, a character
device discards them. The number of complete items written is returned. -/
def fwrite (h : Host) (w : World) (ptr : List Byte) (size nmemb : Nat)
    (stream : String) : Nat × World :=
  let out := (ptr.take (size * nmemb)).take h.wr_limit
  let written := out.length / size
  (written,
    { files := fun k =>
        if k = stream then
          match w.files k with
          | .ok (.regular c sz) => .ok (.regular (c ++ out) (sz + (out.length : Int)))
          | other => other
        else w.files k
      calls := w.calls ++ [.fwrite stream nmemb written] })

/-- The call `fclose(stream)`. -/
def fclose (w : World) (stream : String) : Int × World :=
  (0, w.log (.fclose stream))

/-- The check `TORCH_CHECK(cond, msg...)`: throws an error whose message is
the concatenation of the message arguments when the condition is false. -/
def TORCH_CHECK (cond : Bool) (msg : String) : Except String Unit :=
  if cond then .ok () else .error msg

/-- The function `read_file` of the source. -/
def read_file (h : Host) (filename : String) (w : World) :
    Except String Tensor × World :=
  let (stat_buf, w1) := stat h w (c_str filename)
  let rc := stat_buf.rc
  match TORCH_CHECK (decide (rc = 0))
      ("[Errno " ++ toString stat_buf.errno ++ "] " ++ h.strerror stat_buf.errno
        ++ ": '" ++ filename ++ "'") with
  | .error e => (.error e, w1)
  | .ok _ =>
    let size : Int := stat_buf.st_size
    match TORCH_CHECK (decide (size > 0)) "Expected a non empty file" with
    | .error e => (.error e, w1)
    | .ok _ =>
      let data := from_file h w1 filename size
      data

/-- The function `write_file` of the source. -/
def write_file (h : Host) (filename : String) (data : Tensor) (w : World) :
    Except String Unit × World :=
  match TORCH_CHECK (decide (data.device = .kCPU)) "Input tensor should be on CPU" with
  | .error e => (.error e, w)
  | .ok _ =>
    match TORCH_CHECK (decide (data.dtype = .kU8)) "Input tensor dtype should be uint8" with
    | .error e => (.error e, w)
    | .ok _ =>
      match TORCH_CHECK (decide (data.dim = 1))
          "Input data should be a 1-dimensional tensor" with
      | .error e => (.error e, w)
      | .ok _ =>
        let fileBytes := data.data_ptr
        let fileCStr := c_str filename
        let (outfile, w1) := fopen h w fileCStr
        match TORCH_CHECK outfile.isSome "Error opening output file", outfile with
        | .error e, _ => (.error e, w1)
        | .ok _, none => (.error "Error opening output file", w1)
        | .ok _, some f =>
          let (_, w2) := fwrite h w1 fileBytes 1 data.numel f
          let (_, w3) := fclose w2 f
          (.ok (), w3)

/-- The message `read_file` builds when `stat` fails. -/
def stat_error_message (h : Host) (errno : Int) (filename : String) : String :=
  "[Errno " ++ toString errno ++ "] " ++ h.strerror errno ++ ": '" ++ filename ++ "'"

/-- The three checks of `write_file` on its buffer. -/
def Tensor.Valid (t : Tensor) : Prop :=
  t.device = .kCPU ∧ t.dtype = .kU8 ∧ t.dim = 1

instance (t : Tensor) : Decidable t.Valid := by
  unfold Tensor.Valid; infer_instance

/-- The canonical name of the file that `filename` denotes for the host. -/
def target (h : Host) (filename : String) : String := h.canon (c_str filename)

/-- The bytes of the buffer that the host accepts in the one `fwrite`. -/
def accepted (h : Host) (data : Tensor) : List Byte :=
  (data.storage.take data.numel).take h.wr_limit

/-- The world `write_file` leaves when its checks and the open succeed. -/
def written_world (h : Host) (filename : String) (data : Tensor) (w : World) : World :=
  { files := fun k =>
      if k = target h filename then
        match w.files (target h filename) with
        | .ok .device => .ok .device
        | _ => .ok (.regular (accepted h data) ((accepted h data).length : Int))
      else w.files k
    calls := w.calls ++
      [.fopen (c_str filename),
       .fwrite (target h filename) data.numel (accepted h data).length,
       .fclose (target h filename)] }

/-- The host calls made between two worlds, the later one extending the
earlier one's list. -/
def calls_since (before after : World) : List Call :=
  after.calls.drop before.calls.length

/-- The messages of the three buffer checks of `write_file`. -/
def validation_messages : List String :=
  ["Input tensor should be on CPU",
   "Input tensor dtype should be uint8",
   "Input data should be a 1-dimensional tensor"]

/-- The message `msg` contains the string `s` as a contiguous part. -/
def mentions (msg s : String) : Prop := s.data <:+: msg.data

instance (msg s : String) : Decidable (mentions msg s) := by
  unfold mentions; infer_instance

/-! ## Concrete hosts, worlds and buffers -/

/-- The error number `ENOENT`. -/
def ENOENT : Errno := ⟨2, by decide⟩

/-- A host for which `./name` and `name` denote the same file, that grants
an open for writing everywhere except under `/nonexistent/`, grants a
read-only mapping of everything except `secret.bin`, and accepts writes of
up to 4096 bytes. -/
def host0 : Host where
  strerror := fun e => if e = 2 then "No such file or directory" else "Unknown error"
  canon := fun p => if "./".data.isPrefixOf p.data then ⟨p.data.drop 2⟩ else p
  may_open := fun p => !("/nonexistent/".data.isPrefixOf p.data)
  may_map := fun p => decide (p ≠ "secret.bin")
  wr_limit := 4096

/-- A host as `host0` whose writes accept at most two bytes. -/
def hostShort : Host := { host0 with wr_limit := 2 }

/-- A world with a three-byte file, an empty file, a directory, the device
`/dev/null`, a two-byte file that may not be read, a file with content for
which `stat` reports size zero, a two-byte file for which `stat` reports
size 4096, and nothing else. -/
def world0 : World where
  files := fun k =>
    if k = "in.bin" then .ok (.regular [10, 20, 30] 3)
    else if k = "empty.bin" then .ok (.regular [] 0)
    else if k = "data" then .ok (.directory 4096)
    else if k = "/dev/null" then .ok .device
    else if k = "secret.bin" then .ok (.regular [7, 7] 2)
    else if k = "/proc/version" then .ok (.regular [76, 105, 110, 117, 120] 0)
    else if k = "/sys/attr" then .ok (.regular [49, 10] 4096)
    else .error ENOENT
  calls := []

/-- The host, uint8, rank-1 buffer `[1,2,3,4,5]`. -/
def buf5 : Tensor := ⟨.kCPU, .kU8, [5], [1, 2, 3, 4, 5]⟩

theorem stat_snd (h : Host) (w : World) (path : String) :
    (stat h w path).2 = w.log (.stat path) := by
  unfold stat
  split <;> rfl

theorem stat_regular (h : Host) (w : World) (path : String) (c : List Byte) (sz : Int)
    (hf : w.files (h.canon path) = .ok (.regular c sz)) :
    (stat h w path).1 = ⟨0, sz, 0⟩ := by
  unfold stat
  rw [hf]

theorem stat_rc (h : Host) (w : World) (path : String) :
    (stat h w path).1.rc = 0 ∨
      ((stat h w path).1.rc = -1 ∧ 0 < (stat h w path).1.errno) := by
  unfold stat
  split
  · left; rfl
  · left; rfl
  · left; rfl
  · next e _ => right; exact ⟨rfl, e.pos⟩

theorem read_file_eq (h : Host) (filename : String) (w : World) :
    read_file h filename w =
      if (stat h w (c_str filename)).1.rc = 0 then
        if (stat h w (c_str filename)).1.st_size > 0 then
          from_file h (w.log (.stat (c_str filename))) filename
            (stat h w (c_str filename)).1.st_size
        else (.error "Expected a non empty file", w.log (.stat (c_str filename)))
      else
        (.error (stat_error_message h (stat h w (c_str filename)).1.errno filename),
          w.log (.stat (c_str filename))) := by
  have h2 := stat_snd h w (c_str filename)
  unfold read_file stat_error_message TORCH_CHECK
  rcases hst : stat h w (c_str filename) with ⟨sb, w1⟩
  rw [hst] at h2
  simp only at h2
  subst h2
  by_cases h1 : sb.rc = 0
  · by_cases h3 : sb.st_size > 0
    · simp [h1, h3]
    · simp [h1, h3]
  · simp [h1]

theorem write_file_invalid (h : Host) (filename : String) (data : Tensor) (w : World)
    (hv : ¬ data.Valid) :
    write_file h filename data w =
      (.error
        (if data.device ≠ .kCPU then "Input tensor should be on CPU"
         else if data.dtype ≠ .kU8 then "Input tensor dtype should be uint8"
         else "Input data should be a 1-dimensional tensor"), w) := by
  unfold Tensor.Valid at hv
  unfold write_file TORCH_CHECK
  by_cases h1 : data.device = .kCPU
  · by_cases h2 : data.dtype = .kU8
    · have h3 : ¬ data.dim = 1 := fun h3 => hv ⟨h1, h2, h3⟩
      simp [h1, h2, h3]
    · simp [h1, h2]
  · simp [h1]

theorem write_file_valid (h : Host) (filename : String) (data : Tensor) (w : World)
    (hv : data.Valid) :
    write_file h filename data w =
      if (fopen h w (c_str filename)).1.isSome then
        (.ok (), written_world h filename data w)
      else (.error "Error opening output file", w.log (.fopen (c_str filename))) := by
  obtain ⟨h1, h2, h3⟩ := hv
  unfold write_file TORCH_CHECK
  simp only [h1, h2, h3, decide_True, if_true]
  unfold fopen
  by_cases ho : h.may_open (c_str filename) = true
  · simp only [ho, if_true]
    cases hf : w.files (h.canon (c_str filename)) with
    | error e =>
      simp [fwrite, fclose, World.log, written_world, Tensor.data_ptr, target, accepted, hf]
      funext k
      by_cases hk : k = h.canon (c_str filename) <;> simp [hk]
    | ok n =>
      cases n with
      | regular c sz =>
        simp [fwrite, fclose, World.log, written_world, Tensor.data_ptr, target, accepted, hf]
        funext k
        by_cases hk : k = h.canon (c_str filename) <;> simp [hk]
      | directory sz => simp
      | device =>
        simp [fwrite, fclose, World.log, written_world, Tensor.data_ptr, target, accepted, hf]
        funext k
        by_cases hk : k = h.canon (c_str filename) <;> simp [hk, hf]
  · simp [ho]

theorem from_file_regular (h : Host) (w : World) (filename : String) (c : List Byte)
    (sz size : Int) (hf : w.files (target h filename) = .ok (.regular c sz))
    (hmap : h.may_map (c_str filename) = true) (h0 : 0 ≤ size)
    (hle : size.toNat ≤ c.length) :
    from_file h w filename size =
      (.ok ⟨.kCPU, .kU8, [size.toNat], c.take size.toNat⟩,
        w.log (.from_file filename size)) := by
  unfold target at hf
  unfold from_file
  simp only [hmap, if_true]
  rw [hf]
  simp [h0, hle]

theorem read_file_regular (h : Host) (filename : String) (w : World) (c : List Byte)
    (sz : Int) (hf : w.files (target h filename) = .ok (.regular c sz))
    (hpos : 0 < sz) (hle : sz ≤ (c.length : Int))
    (hmap : h.may_map (c_str filename) = true) :
    read_file h filename w =
      (.ok ⟨.kCPU, .kU8, [sz.toNat], c.take sz.toNat⟩,
        (w.log (.stat (c_str filename))).log (.from_file filename sz)) := by
  rw [read_file_eq, stat_regular h w (c_str filename) c sz hf]
  have hpos1 : sz > 0 := hpos
  simp only [if_true, hpos1]
  exact from_file_regular h (w.log (.stat (c_str filename))) filename c sz sz hf hmap
    (le_of_lt hpos) (by omega)

theorem read_file_size_zero (h : Host) (filename : String) (w : World)
    (hrc : (stat h w (c_str filename)).1.rc = 0)
    (hsz : (stat h w (c_str filename)).1.st_size = 0) :
    read_file h filename w =
      (.error "Expected a non empty file", w.log (.stat (c_str filename))) := by
  rw [read_file_eq]
  simp [hrc, hsz]

theorem written_world_files_self (h : Host) (filename : String) (data : Tensor) (w : World)
    (hdev : w.files (target h filename) ≠ .ok .device) :
    (written_world h filename data w).files (target h filename) =
      .ok (.regular (accepted h data) ((accepted h data).length : Int)) := by
  cases hf : w.files (target h filename) with
  | error e => simp [written_world, hf]
  | ok n =>
    cases n with
    | regular c sz => simp [written_world, hf]
    | directory sz => simp [written_world, hf]
    | device => exact absurd hf hdev

theorem written_world_files_device (h : Host) (filename : String) (data : Tensor) (w : World)
    (hdev : w.files (target h filename) = .ok .device) :
    (written_world h filename data w).files (target h filename) = .ok .device := by
  simp only [written_world, if_true]
  rw [hdev]

theorem length_of_wellFormed (data : Tensor) (hv : data.Valid) (hwf : data.WellFormed) :
    data.storage.length = data.numel := by
  have := hwf
  unfold Tensor.WellFormed at this
  rw [hv.2.1] at this
  simpa [ScalarType.itemsize] using this

theorem accepted_short (h : Host) (data : Tensor) (hv : data.Valid)
    (hwf : data.WellFormed) (hshort : h.wr_limit < data.numel) :
    accepted h data = data.storage.take h.wr_limit ∧
      (accepted h data).length = h.wr_limit := by
  have hlen := length_of_wellFormed data hv hwf
  have h1 : accepted h data = data.storage.take h.wr_limit := by
    unfold accepted
    rw [List.take_of_length_le (le_of_eq hlen)]
  refine ⟨h1, ?_⟩
  rw [h1, List.length_take]
  omega

theorem from_file_files (h : Host) (w : World) (filename : String) (size : Int) :
    (from_file h w filename size).2 = w.log (.from_file filename size) := by
  unfold from_file
  split
  · split
    · split <;> rfl
    · rfl
    · rfl
    · rfl
  · rfl

theorem read_file_files (h : Host) (filename : String) (w : World) :
    (read_file h filename w).2.files = w.files := by
  rw [read_file_eq]
  split
  · split
    · rw [from_file_files]
      rfl
    · rfl
  · rfl

theorem read_file_calls (h : Host) (filename : String) (w : World) :
    (read_file h filename w).2.calls =
      w.calls ++
        (if (stat h w (c_str filename)).1.rc = 0 ∧
            (stat h w (c_str filename)).1.st_size > 0 then
          [Call.stat (c_str filename),
           Call.from_file filename (stat h w (c_str filename)).1.st_size]
         else [Call.stat (c_str filename)]) := by
  rw [read_file_eq]
  by_cases h1 : (stat h w (c_str filename)).1.rc = 0
  · by_cases h2 : (stat h w (c_str filename)).1.st_size > 0
    · simp only [h1, h2, if_true, and_self]
      rw [from_file_files]
      simp [World.log]
    · simp [h1, h2, World.log]
  · simp [h1, World.log]

theorem write_file_valid_not_validation (h : Host) (filename : String) (data : Tensor)
    (w : World) (hv : data.Valid) :
    ∀ m ∈ validation_messages, (write_file h filename data w).1 ≠ .error m := by
  intro m hm
  rw [write_file_valid h filename data w hv]
  simp only [validation_messages, List.mem_cons, List.mem_singleton,
    List.not_mem_nil, or_false] at hm
  split
  · simp
  · rcases hm with rfl | rfl | rfl <;> simp

theorem write_file_ok_of_open (h : Host) (filename : String) (data : Tensor) (w : World)
    (hv : data.Valid) (hopen : (fopen h w (c_str filename)).1.isSome = true) :
    write_file h filename data w = (.ok (), written_world h filename data w) := by
  rw [write_file_valid h filename data w hv]
  simp [hopen]

/-! ## The claims -/

/-- C1: `write_file` checks device, then dtype, then rank, and fails on the
first one violated with the message of that check: a non-CPU device gives
"Input tensor should be on CPU" whatever dtype and rank are; a CPU buffer
that is not uint8 gives "Input tensor dtype should be uint8" whatever the
rank is; a CPU uint8 buffer of rank other than 1 gives "Input data should be
a 1-dimensional tensor". None of the three messages is raised exactly when
the device is CPU, the dtype uint8 and the rank 1. -/
theorem write_file_validation_order (h : Host) (filename : String) (data : Tensor)
    (w : World) :
    (data.device ≠ .kCPU →
      (write_file h filename data w).1 = .error "Input tensor should be on CPU") ∧
    (data.device = .kCPU → data.dtype ≠ .kU8 →
      (write_file h filename data w).1 = .error "Input tensor dtype should be uint8") ∧
    (data.device = .kCPU → data.dtype = .kU8 → data.dim ≠ 1 →
      (write_file h filename data w).1 =
        .error "Input data should be a 1-dimensional tensor") ∧
    ((∀ m ∈ validation_messages, (write_file h filename data w).1 ≠ .error m) ↔
      (data.device = .kCPU ∧ data.dtype = .kU8 ∧ data.dim = 1)) := by
  refine ⟨?_, ?_, ?_, ?_⟩
  · intro h1
    rw [write_file_invalid h filename data w (fun hv => h1 hv.1)]
    simp [h1]
  · intro h1 h2
    rw [write_file_invalid h filename data w (fun hv => h2 hv.2.1)]
    simp [h1, h2]
  · intro h1 h2 h3
    rw [write_file_invalid h filename data w (fun hv => h3 hv.2.2)]
    simp [h1, h2]
  · constructor
    · intro hno
      by_contra hv
      rw [write_file_invalid h filename data w hv] at hno
      by_cases h1 : data.device = .kCPU
      · by_cases h2 : data.dtype = .kU8
        · exact hno "Input data should be a 1-dimensional tensor"
            (by simp [validation_messages]) (by simp [h1, h2])
        · exact hno "Input tensor dtype should be uint8"
            (by simp [validation_messages]) (by simp [h1, h2])
      · exact hno "Input tensor should be on CPU"
          (by simp [validation_messages]) (by simp [h1])
    · intro hv m hm
      exact write_file_valid_not_validation h filename data w hv m hm

/-- Witness for C1: a CUDA float buffer of rank 2 is rejected for its device,
a CPU float buffer of rank 2 for its dtype, a CPU uint8 buffer of rank 2 for
its rank, and the CPU uint8 rank-1 buffer passes all three checks. -/
theorem write_file_validation_order_witness :
    (write_file host0 "out.bin" ⟨.kCUDA, .kF32, [2, 2], []⟩ world0).1 =
        .error "Input tensor should be on CPU" ∧
    (write_file host0 "out.bin" ⟨.kCPU, .kF32, [2, 2], []⟩ world0).1 =
        .error "Input tensor dtype should be uint8" ∧
    (write_file host0 "out.bin" ⟨.kCPU, .kU8, [2, 2], [1, 2, 3, 4]⟩ world0).1 =
        .error "Input data should be a 1-dimensional tensor" ∧
    (∀ m ∈ validation_messages, (write_file host0 "out.bin" buf5 world0).1 ≠ .error m) :=
  ⟨(write_file_validation_order host0 "out.bin" ⟨.kCUDA, .kF32, [2, 2], []⟩ world0).1
      (by decide),
   (write_file_validation_order host0 "out.bin" ⟨.kCPU, .kF32, [2, 2], []⟩ world0).2.1
      rfl (by decide),
   (write_file_validation_order host0 "out.bin"
      ⟨.kCPU, .kU8, [2, 2], [1, 2, 3, 4]⟩ world0).2.2.1 rfl rfl (by decide),
   (write_file_validation_order host0 "out.bin" buf5 world0).2.2.2.mpr
      ⟨rfl, rfl, rfl⟩⟩

/-- C2: when `write_file` fails with one of the three validation messages,
the world after the call is the world before it: no file is created,
truncated or written and no host call has been made, because the three
checks come before the open. -/
theorem write_file_validation_no_effect (h : Host) (filename : String) (data : Tensor)
    (w : World)
    (hfail : ∃ m ∈ validation_messages, (write_file h filename data w).1 = .error m) :
    (write_file h filename data w).2 = w ∧
      (∀ k, (write_file h filename data w).2.files k = w.files k) ∧
      calls_since w (write_file h filename data w).2 = [] := by
  have key : (write_file h filename data w).2 = w := by
    by_cases hv : data.Valid
    · exfalso
      obtain ⟨m, hm, hr⟩ := hfail
      exact write_file_valid_not_validation h filename data w hv m hm hr
    · rw [write_file_invalid h filename data w hv]
  refine ⟨key, ?_, ?_⟩
  · intro k
    rw [key]
  · rw [key]
    simp [calls_since]

/-- Witness for C2: writing a rank-2 buffer to the existing three-byte file
`in.bin` fails with the rank message and leaves the world, and so the
content of `in.bin`, as it was. -/
theorem write_file_validation_no_effect_witness :
    (write_file host0 "in.bin" ⟨.kCPU, .kU8, [2, 2], [1, 2, 3, 4]⟩ world0).1 =
        .error "Input data should be a 1-dimensional tensor" ∧
    (write_file host0 "in.bin" ⟨.kCPU, .kU8, [2, 2], [1, 2, 3, 4]⟩ world0).2 = world0 ∧
    (write_file host0 "in.bin" ⟨.kCPU, .kU8, [2, 2], [1, 2, 3, 4]⟩ world0).2.files "in.bin" =
        .ok (.regular [10, 20, 30] 3) :=
  have hw := write_file_validation_no_effect host0 "in.bin"
    ⟨.kCPU, .kU8, [2, 2], [1, 2, 3, 4]⟩ world0
    ⟨"Input data should be a 1-dimensional tensor", by simp [validation_messages], rfl⟩
  ⟨rfl, hw.1, (hw.2.1 "in.bin").trans rfl⟩

/-- C4, as stated, fails in three ways. The regular file `secret.bin` holds
two bytes and `stat` reports size 2, but the host does not grant the
read-only open, and `read_file` fails. The regular file `/proc/version`
holds five bytes but `stat` reports size 0 for it, and `read_file` fails
with "Expected a non empty file". The regular file `/sys/attr` holds two
bytes but `stat` reports size 4096 for it, a mapping of that size is not
possible, and `read_file` fails. -/
theorem read_file_content_counterexample :
    (world0.files (target host0 "secret.bin") = .ok (.regular [7, 7] 2) ∧
      (stat host0 world0 (c_str "secret.bin")).1 = ⟨0, 2, 0⟩ ∧
      (read_file host0 "secret.bin" world0).1.toBool = false) ∧
    (world0.files (target host0 "/proc/version") =
        .ok (.regular [76, 105, 110, 117, 120] 0) ∧
      (read_file host0 "/proc/version" world0).1 = .error "Expected a non empty file") ∧
    (world0.files (target host0 "/sys/attr") = .ok (.regular [49, 10] 4096) ∧
      (stat host0 world0 (c_str "/sys/attr")).1 = ⟨0, 4096, 0⟩ ∧
      (read_file host0 "/sys/attr" world0).1.toBool = false) := by
  refine ⟨⟨rfl, by decide, rfl⟩, ⟨rfl, rfl⟩, ⟨rfl, by decide, rfl⟩⟩

/-- C4, amended: for a path naming a regular file for which `stat` reports a
positive size no larger than the number of bytes the file holds, and which
the host lets be opened and mapped read-only, `read_file` succeeds and
returns a one-dimensional uint8 CPU buffer whose element count is the size
`stat` reports and whose bytes are the file's bytes, position by position
(the whole content when the reported size is the number of bytes); the
files of the world are unchanged by the call. -/
theorem read_file_content (h : Host) (filename : String) (w : World) (c : List Byte)
    (sz : Int) (hf : w.files (target h filename) = .ok (.regular c sz))
    (hpos : 0 < sz) (hle : sz ≤ (c.length : Int))
    (hmap : h.may_map (c_str filename) = true) :
    ∃ t, (read_file h filename w).1 = .ok t ∧
      t.dim = 1 ∧ t.dtype = .kU8 ∧ t.device = .kCPU ∧
      (t.numel : Int) = (stat h w (c_str filename)).1.st_size ∧
      (∀ i, i < t.numel → t.storage.get? i = c.get? i) ∧
      (sz = (c.length : Int) → t.numel = c.length ∧ t.storage = c) ∧
      (read_file h filename w).2.files = w.files := by
  have hread := read_file_regular h filename w c sz hf hpos hle hmap
  refine ⟨⟨.kCPU, .kU8, [sz.toNat], c.take sz.toNat⟩, by rw [hread], rfl, rfl, rfl,
    ?_, ?_, ?_, read_file_files h filename w⟩
  · rw [stat_regular h w (c_str filename) c sz hf]
    simp only [Tensor.numel, List.prod_cons, List.prod_nil, mul_one]
    omega
  · intro i hi
    simp only [Tensor.numel, List.prod_cons, List.prod_nil, mul_one] at hi
    simp only [List.get?_eq_getElem?]
    rw [List.getElem?_take, if_pos hi]
  · intro heq
    have hn : sz.toNat = c.length := by omega
    simp [Tensor.numel, hn]

/-- Witness for the amended C4: reading the three-byte file `in.bin`. -/
theorem read_file_content_witness :
    world0.files (target host0 "in.bin") = .ok (.regular [10, 20, 30] 3) ∧
    host0.may_map (c_str "in.bin") = true ∧
    (read_file host0 "in.bin" world0).1 = .ok ⟨.kCPU, .kU8, [3], [10, 20, 30]⟩ ∧
    ∃ t, (read_file host0 "in.bin" world0).1 = .ok t ∧
      t.dim = 1 ∧ t.dtype = .kU8 ∧ t.device = .kCPU ∧
      (t.numel : Int) = (stat host0 world0 (c_str "in.bin")).1.st_size ∧
      (∀ i, i < t.numel → t.storage.get? i = ([10, 20, 30] : List Byte).get? i) ∧
      ((3 : Int) = (([10, 20, 30] : List Byte).length : Int) →
        t.numel = ([10, 20, 30] : List Byte).length ∧ t.storage = [10, 20, 30]) ∧
      (read_file host0 "in.bin" world0).2.files = world0.files :=
  ⟨rfl, by decide, rfl,
   read_file_content host0 "in.bin" world0 [10, 20, 30] 3 rfl (by decide) (by decide)
     (by decide)⟩

/-- C6: when `stat` succeeds and reports size zero, `read_file` fails with
"Expected a non empty file" and the only host call it makes is `stat`:
`from_file` is not called. In general the calls `read_file` makes are `stat`
followed by `from_file` when `stat` succeeded with a positive size, and
`stat` alone otherwise, so the mapping step is reached only then. -/
theorem read_file_empty_rejected (h : Host) (path : String) (w : World) :
    ((stat h w (c_str path)).1.rc = 0 → (stat h w (c_str path)).1.st_size = 0 →
      (read_file h path w).1 = .error "Expected a non empty file" ∧
      calls_since w (read_file h path w).2 = [.stat (c_str path)]) ∧
    (∀ p sz, Call.from_file p sz ∈ calls_since w (read_file h path w).2 →
      (stat h w (c_str path)).1.rc = 0 ∧ 0 < (stat h w (c_str path)).1.st_size) ∧
    ((stat h w (c_str path)).1.rc = 0 → 0 < (stat h w (c_str path)).1.st_size →
      calls_since w (read_file h path w).2 =
        [.stat (c_str path), .from_file path (stat h w (c_str path)).1.st_size]) := by
  have hcalls := read_file_calls h path w
  refine ⟨?_, ?_, ?_⟩
  · intro hrc hsz
    constructor
    · rw [read_file_size_zero h path w hrc hsz]
    · unfold calls_since
      rw [hcalls]
      simp [hrc, hsz]
  · intro p sz hmem
    unfold calls_since at hmem
    rw [hcalls] at hmem
    by_cases hc : (stat h w (c_str path)).1.rc = 0 ∧ (stat h w (c_str path)).1.st_size > 0
    · exact hc
    · simp [hc] at hmem
  · intro hrc hsz
    unfold calls_since
    rw [hcalls]
    simp [hrc, hsz]

/-- Witness for C6: reading the existing empty file `empty.bin`. -/
theorem read_file_empty_rejected_witness :
    (stat host0 world0 (c_str "empty.bin")).1.rc = 0 ∧
    (stat host0 world0 (c_str "empty.bin")).1.st_size = 0 ∧
    (read_file host0 "empty.bin" world0).1 = .error "Expected a non empty file" ∧
    calls_since world0 (read_file host0 "empty.bin" world0).2 = [.stat "empty.bin"] :=
  ⟨by decide, by decide,
   ((read_file_empty_rejected host0 "empty.bin" world0).1 (by decide) (by decide)).1,
   ((read_file_empty_rejected host0 "empty.bin" world0).1 (by decide) (by decide)).2.trans
     (by decide)⟩

/-- C7: when `stat` fails, `read_file` fails with the message
"[Errno <errno>] <strerror(errno)>: '<path>'", where the error number is not
zero and the path is the given string; the only host call made is `stat`, so
neither the size check nor the mapping is reached, and the files are
unchanged. -/
theorem read_file_stat_failure (h : Host) (path : String) (w : World)
    (hrc : (stat h w (c_str path)).1.rc ≠ 0) :
    (read_file h path w).1 =
      .error ("[Errno " ++ toString (stat h w (c_str path)).1.errno ++ "] " ++
        h.strerror (stat h w (c_str path)).1.errno ++ ": '" ++ path ++ "'") ∧
    (stat h w (c_str path)).1.errno ≠ 0 ∧
    calls_since w (read_file h path w).2 = [.stat (c_str path)] ∧
    (read_file h path w).2.files = w.files := by
  refine ⟨?_, ?_, ?_, read_file_files h path w⟩
  · rw [read_file_eq]
    simp [hrc, stat_error_message]
  · rcases stat_rc h w (c_str path) with h0 | ⟨_, hpos⟩
    · exact absurd h0 hrc
    · exact ne_of_gt hpos
  · unfold calls_since
    rw [read_file_calls]
    simp [hrc]

/-- Witness for C7: reading the nonexistent path `missing.bin`. -/
theorem read_file_stat_failure_witness :
    (stat host0 world0 (c_str "missing.bin")).1.rc ≠ 0 ∧
    (read_file host0 "missing.bin" world0).1 =
      .error "[Errno 2] No such file or directory: 'missing.bin'" ∧
    calls_since world0 (read_file host0 "missing.bin" world0).2 = [.stat "missing.bin"] :=
  have hw := read_file_stat_failure host0 "missing.bin" world0 (by decide)
  ⟨by decide, hw.1.trans (congrArg Except.error (by decide)), hw.2.2.1.trans (by decide)⟩

/-- C8: the code at a failing open. For the valid buffer `[1,2,3,4,5]` and
the path `/nonexistent/out.bin`, which cannot be opened, the error of
`write_file` is the fixed text "Error opening output file", which does not
contain the path; the same text results for the directory `data`, where the
open fails for another reason, so the text carries no error number either.
The check after `stat` in `read_file` does report error number, message and
path: for the same path its message is
"[Errno 2] No such file or directory: '/nonexistent/out.bin'". -/
theorem write_file_open_error_omits_path :
    buf5.Valid ∧
    (fopen host0 world0 (c_str "/nonexistent/out.bin")).1 = none ∧
    (write_file host0 "/nonexistent/out.bin" buf5 world0).1 =
      .error "Error opening output file" ∧
    ¬ mentions "Error opening output file" "/nonexistent/out.bin" ∧
    (fopen host0 world0 (c_str "data")).1 = none ∧
    (write_file host0 "data" buf5 world0).1 = .error "Error opening output file" ∧
    (read_file host0 "/nonexistent/out.bin" world0).1 =
      .error "[Errno 2] No such file or directory: '/nonexistent/out.bin'" ∧
    mentions "[Errno 2] No such file or directory: '/nonexistent/out.bin'"
      "/nonexistent/out.bin" := by
  refine ⟨by decide, by decide, rfl, by decide, by decide, rfl, ?_, by decide⟩
  exact congrArg Except.error (by decide)

/-- C9: for a valid (CPU, uint8, rank-1) buffer, `write_file` returns
normally whenever the open succeeds, whatever number of bytes the write
accepts; the only error it can report is the open failure. When the write
is short (the host accepts fewer than `numel` bytes) `write_file` still
returns normally, the `fwrite` call reports the smaller count, and the file
does not hold the whole buffer: a regular file holds only the accepted
leading bytes. -/
theorem write_file_ignores_short_write (h : Host) (filename : String) (data : Tensor)
    (w : World) (hv : data.Valid) :
    ((fopen h w (c_str filename)).1.isSome = true →
      (write_file h filename data w).1 = .ok ()) ∧
    (∀ e, (write_file h filename data w).1 = .error e →
      e = "Error opening output file" ∧ (fopen h w (c_str filename)).1 = none) ∧
    (data.WellFormed → (fopen h w (c_str filename)).1.isSome = true →
      h.wr_limit < data.numel →
      (write_file h filename data w).1 = .ok () ∧
      calls_since w (write_file h filename data w).2 =
        [.fopen (c_str filename), .fwrite (target h filename) data.numel h.wr_limit,
         .fclose (target h filename)] ∧
      (∀ sz, (write_file h filename data w).2.files (target h filename) ≠
        .ok (.regular data.storage sz)) ∧
      (w.files (target h filename) ≠ .ok .device →
        (write_file h filename data w).2.files (target h filename) =
          .ok (.regular (data.storage.take h.wr_limit) (h.wr_limit : Int)))) := by
  refine ⟨?_, ?_, ?_⟩
  · intro hopen
    rw [write_file_ok_of_open h filename data w hv hopen]
  · intro e he
    rw [write_file_valid h filename data w hv] at he
    cases ho : (fopen h w (c_str filename)).1 with
    | none =>
      rw [ho] at he
      simp at he
      exact ⟨he.symm, rfl⟩
    | some f =>
      rw [ho] at he
      simp at he
  · intro hwf hopen hshort
    have hlen := length_of_wellFormed data hv hwf
    obtain ⟨hacc, hacclen⟩ := accepted_short h data hv hwf hshort
    have hwr := write_file_ok_of_open h filename data w hv hopen
    have hregular : w.files (target h filename) ≠ .ok .device →
        (write_file h filename data w).2.files (target h filename) =
          .ok (.regular (data.storage.take h.wr_limit) (h.wr_limit : Int)) := by
      intro hreg
      rw [hwr]
      simp only
      rw [written_world_files_self h filename data w hreg, hacclen, hacc]
    refine ⟨by rw [hwr], ?_, ?_, hregular⟩
    · rw [hwr]
      simp only [calls_since, written_world, List.drop_left, hacclen]
    · intro sz heq
      by_cases hdev : w.files (target h filename) = .ok .device
      · rw [hwr] at heq
        simp only at heq
        rw [written_world_files_device h filename data w hdev] at heq
        cases heq
      · rw [hregular hdev] at heq
        have hl := congrArg List.length (Node.regular.inj (Except.ok.inj heq)).1
        rw [List.length_take] at hl
        omega

/-- Witness for C9: on a host accepting two bytes per write, writing
`[1,2,3,4,5]` to `out.bin` returns normally and leaves the two bytes `01 02`. -/
theorem write_file_ignores_short_write_witness :
    buf5.Valid ∧ buf5.WellFormed ∧
    (fopen hostShort world0 (c_str "out.bin")).1.isSome = true ∧
    hostShort.wr_limit < buf5.numel ∧
    (write_file hostShort "out.bin" buf5 world0).1 = .ok () ∧
    calls_since world0 (write_file hostShort "out.bin" buf5 world0).2 =
      [.fopen "out.bin", .fwrite "out.bin" 5 2, .fclose "out.bin"] ∧
    (write_file hostShort "out.bin" buf5 world0).2.files "out.bin" =
      .ok (.regular [1, 2] 2) :=
  have hw := (write_file_ignores_short_write hostShort "out.bin" buf5 world0
    (by decide)).2.2 (by decide) (by decide) (by decide)
  ⟨by decide, by decide, by decide, by decide, hw.1, hw.2.1.trans (by decide),
    (hw.2.2.2 (fun hd => by cases hd)).trans rfl⟩

end Vision
